import Mathlib

/-!
Shallow embedding of the pairing server in `src/index.js` (the variant with
`scheduleSessionCleanup`, `startSocket`/`startConnection`, the
`connection.update` handlers and the `/pair`, `/status/:number`,
`/session/:number` routes).

Modelling conventions:
- JS `Map`s (`userSockets`, `pairingStates`) become association lists over
  `String` keys with `rlookup` / `rinsert` / `rerase`; `Map.set` replaces an
  existing binding, `Map.delete` removes it, so keys stay unique.
- The on-disk session directories become a list of phone numbers
  (`sessionDirs`); `rmSync(dir, force)` is a filter, idempotent as in `fs`.
- Disconnect reasons (`lastDisconnect?.error?.output?.statusCode`) are
  `Option Nat` (`none` = `undefined`).  The Baileys constants used by the
  code are numeric: `DisconnectReason.loggedOut = 401`,
  `DisconnectReason.forbidden = 403`.
- Timers (`setTimeout` / `scheduleSessionCleanup`) are recorded as scheduled
  delays in the handlers' results rather than executed.
- File contents are byte lists; `readFileSync(..., 'utf8')` followed by
  `Buffer.from(...).toString('base64')` is modelled as base64 over the raw
  bytes.
-/

namespace SanoSession

/-- One entry of the `pairingStates` map.  The JS code only ever stores two
object shapes: `\x7bstatus: 'pending', pairingCode, timestamp\x7d` (lines
461-465) and `\x7bstatus: 'completed', base64Creds, timestamp\x7d` (lines
384-388). -/
inductive PairingState where
  | pending (pairingCode : String) (timestamp : Nat)
  | completed (base64Creds : String) (timestamp : Nat)

deriving instance DecidableEq for PairingState

/-- Lookup in a string-keyed map (JS `Map.get`). -/
def rlookup {α : Type} : List (String × α) → String → Option α
  | [], _ => none
  | (k, v) :: rest, key => if k = key then some v else rlookup rest key

/-- Insert-or-replace in a string-keyed map (JS `Map.set`). -/
def rinsert {α : Type} : List (String × α) → String → α → List (String × α)
  | [], k, v => [(k, v)]
  | (k', v') :: rest, k, v =>
    if k' = k then (k, v) :: rest else (k', v') :: rinsert rest k v

/-- Removal from a string-keyed map (JS `Map.delete`). -/
def rerase {α : Type} : List (String × α) → String → List (String × α)
  | [], _ => []
  | (k', v') :: rest, k =>
    if k' = k then rerase rest k else (k', v') :: rerase rest k

/-- The module-level mutable state of the server: the `userSockets` map
(socket handles modelled as numeric ids), the `pairingStates` map, and the
set of phone numbers with an on-disk session directory. -/
structure ServerState where
  userSockets : List (String × Nat)
  pairingStates : List (String × PairingState)
  sessionDirs : List String

deriving instance DecidableEq for ServerState

/-- `number.replace(/^\x5c+/, '')` on the character list: drop a single
leading `'+'` if present. -/
def stripPlusList : List Char → List Char
  | [] => []
  | c :: rest => if c = '+' then rest else c :: rest

/-- `number.replace(/^\x5c+/, '')` on strings. -/
def stripPlus (s : String) : String := String.mk (stripPlusList s.data)

/-- The `/pair` body check `/^\x5c+?\x5cd\x7b10,15\x7d$/.test(number)`:
an optional leading `'+'` followed by 10 to 15 digits and nothing else. -/
def isValidNumber (s : String) : Bool :=
  let t := stripPlusList s.data
  decide (10 ≤ t.length) && decide (t.length ≤ 15) && t.all (fun c => c.isDigit)

/-- `const maxRetries = 3` (line 280). -/
def maxRetries : Nat := 3

/-- The `retryDelays` table (lines 281-289) together with the lookup
`retryDelays[reason] || retryDelays.default` from line 434:
428 → 10 s, 408 → 5 s, 440 → 2 s, 500 → 5 s, 503 → 60 s, 515 → 2 s, and
5 s for every other reason (`undefined` included). -/
def retryDelays (reason : Option Nat) : Nat :=
  if reason = some 428 then 10000
  else if reason = some 408 then 5000
  else if reason = some 440 then 2000
  else if reason = some 500 then 5000
  else if reason = some 503 then 60000
  else if reason = some 515 then 2000
  else 5000

/-- The three-way classification performed by the `close` branch of the
`connection.update` handler (lines 410-437). -/
inductive Classification where
  | terminalFatal
  | terminalForbidden
  | retryable (delayMs : Nat)

deriving instance DecidableEq for Classification

/-- The dispatch of the `close` branch (lines 410, 421, 432):
`reason === DisconnectReason.loggedOut || reason === 401` (loggedOut is 401),
then `reason === DisconnectReason.forbidden || reason === 403` (forbidden is
403), everything else retries with the table delay. -/
def classifyDisconnect (reason : Option Nat) : Classification :=
  if reason = some 401 then .terminalFatal
  else if reason = some 403 then .terminalForbidden
  else .retryable (retryDelays reason)

/-- A reason is retryable when the close handler falls through to the
`else` branch (line 432). -/
def isRetryable (reason : Option Nat) : Bool :=
  match classifyDisconnect reason with
  | .retryable _ => true
  | _ => false

/-- The cleanup delay passed at retry exhaustion:
`scheduleSessionCleanup(phoneNumber, 1000)` (line 300). -/
def abortCleanupDelay : Nat := 1000

/-- The default cleanup delay of `scheduleSessionCleanup`
(`delay = 5 * 60 * 1000`, line 261), used by the bare call on line 395. -/
def scheduleSessionCleanupDefault : Nat := 5 * 60 * 1000

/-- The abort step at the top of `startConnection` (lines 292-302):
when `retryCount >= maxRetries`, report HTTP 500 if the response is still
open and schedule cleanup after `abortCleanupDelay`. -/
def maxRetriesAbort (resOpen : Bool) : Option Nat × Nat :=
  ((if resOpen then some 500 else none), abortCleanupDelay)

/-- Outcome of driving one overall pairing attempt through a sequence of
disconnect events. -/
inductive SessionOutcome where
  | live (retryCount : Nat)
  | aborted (retryCount : Nat)
  | terminal (reason : Nat) (retryCount : Nat)

deriving instance DecidableEq for SessionOutcome

/-- The retry loop of `startConnection`: each element of the list is the
reason of the next `close` event observed on the live connection.  A
retryable close does `retryCount++` and re-enters `startConnection`
(lines 433-436), whose guard `retryCount >= maxRetries` aborts
(lines 292-302); 401/403 destroy the session (lines 410-431). -/
def runDisconnects (retryCount : Nat) : List (Option Nat) → SessionOutcome
  | [] => .live retryCount
  | reason :: rest =>
    if reason = some 401 then .terminal 401 retryCount
    else if reason = some 403 then .terminal 403 retryCount
    else
      if maxRetries ≤ retryCount + 1 then .aborted (retryCount + 1)
      else runDisconnects (retryCount + 1) rest

/-- The `retryCount` value carried by a session outcome. -/
def finalRetryCount : SessionOutcome → Nat
  | .live rc => rc
  | .aborted rc => rc
  | .terminal _ rc => rc

/-- The standard base64 alphabet used by `Buffer.toString('base64')`. -/
def base64Table : List Char :=
  "ABCDEFGHIJKLMNOPQRSTUVWXYZabcdefghijklmnopqrstuvwxyz0123456789+/".data

/-- Character of the base64 alphabet at a 6-bit index. -/
def b64Char (n : Nat) : Char := base64Table.getD n 'A'

/-- RFC 4648 base64 with padding over raw bytes, as produced by
`Buffer.from(creds).toString('base64')`. -/
def base64Encode : List Nat → String
  | [] => ""
  | [a] =>
    String.mk [b64Char (a / 4), b64Char (a % 4 * 16), '=', '=']
  | [a, b] =>
    String.mk [b64Char (a / 4), b64Char (a % 4 * 16 + b / 16),
               b64Char (b % 16 * 4), '=']
  | a :: b :: c :: rest =>
    String.mk [b64Char (a / 4), b64Char (a % 4 * 16 + b / 16),
               b64Char (b % 16 * 4 + c / 64), b64Char (c % 64)]
      ++ base64Encode rest

/-- The fixed textual marker prepended to the encoded credentials:
`Sano~$\x7bbase64\x7d` (line 375). -/
def sanoMarker : String := "Sano~"

/-- Second message sent on success (line 379). -/
def sessionSuccessText : String := "ꜱᴀɴᴏ ᴍᴅ ꜱᴇꜱꜱɪᴏɴ ɢᴇɴᴇʀᴀᴛɪᴏɴ ꜱᴜᴄᴄᴇꜱꜱꜰᴜʟ"

/-- Third message sent on success (line 380). -/
def pairSuccessText : String :=
  "ᴘᴀɪʀ ꜱᴜᴄᴄᴇꜱꜱꜰᴜʟ ᴘᴜᴛ ᴀʙᴏᴠᴇ ꜱᴇꜱꜱɪᴏɴ ɪᴅ ɪɴ ᴄᴏɴꜰɪɢ.ᴊꜸ ᴛᴏ ᴘᴀɪʀ ᴀɴᴅ ꜱᴛᴀʀᴛ ʙᴏᴛ"

/-- Observable result of the `open` branch of `connection.update`
(lines 366-404), after the 1 s grace `setTimeout` has fired.
`socketCloseDelay` is the 2 s `setTimeout` that ends the socket;
`cleanupDelay` is the argument of the `scheduleSessionCleanup` call made
from this path, if any. -/
structure OpenResult where
  pairingStates : List (String × PairingState)
  messagesSent : List String
  credsRead : Bool
  socketCloseDelay : Option Nat
  cleanupDelay : Option Nat
  errorLogged : Bool

deriving instance DecidableEq for OpenResult

/-- The `open` branch body (lines 370-403).  `credsFile` is the content of
`creds.json` when it exists.  When the file exists the handler reads it,
sends the blob plus the two fixed texts, stores a `completed` entry, and
schedules the 2 s socket close followed by the default cleanup; when the
file is missing it only logs an error (lines 397-399). -/
def onConnectionOpen (ps : List (String × PairingState)) (phoneNumber : String)
    (credsFile : Option (List Nat)) (now : Nat) : OpenResult :=
  match credsFile with
  | some bytes =>
    { pairingStates :=
        rinsert ps phoneNumber (.completed (sanoMarker ++ base64Encode bytes) now),
      messagesSent := [sanoMarker ++ base64Encode bytes, sessionSuccessText, pairSuccessText],
      credsRead := true,
      socketCloseDelay := some 2000,
      cleanupDelay := some scheduleSessionCleanupDefault,
      errorLogged := false }
  | none =>
    { pairingStates := ps,
      messagesSent := [],
      credsRead := false,
      socketCloseDelay := none,
      cleanupDelay := none,
      errorLogged := true }

/-- Observable result of the `close` branch of `connection.update`
(lines 406-438). -/
structure CloseResult where
  state : ServerState
  httpStatus : Option Nat
  reconnectDelay : Option Nat
  retryCount : Nat

deriving instance DecidableEq for CloseResult

/-- The `close` branch body (lines 406-438).  401 and 403 delete both map
entries, erase the session directory, and answer 401/403 when the response
is still open; every other reason increments `retryCount` and schedules
`startConnection` after the table delay. -/
def onConnectionClose (st : ServerState) (phoneNumber : String) (reason : Option Nat)
    (retryCount : Nat) (resOpen : Bool) : CloseResult :=
  if reason = some 401 then
    { state := { userSockets := rerase st.userSockets phoneNumber,
                 pairingStates := rerase st.pairingStates phoneNumber,
                 sessionDirs := st.sessionDirs.filter (fun d => d != phoneNumber) },
      httpStatus := if resOpen then some 401 else none,
      reconnectDelay := none,
      retryCount := retryCount }
  else if reason = some 403 then
    { state := { userSockets := rerase st.userSockets phoneNumber,
                 pairingStates := rerase st.pairingStates phoneNumber,
                 sessionDirs := st.sessionDirs.filter (fun d => d != phoneNumber) },
      httpStatus := if resOpen then some 403 else none,
      reconnectDelay := none,
      retryCount := retryCount }
  else
    { state := st,
      httpStatus := none,
      reconnectDelay := some (retryDelays reason),
      retryCount := retryCount + 1 }

/-- Groups of at most four characters, as produced by
`code.match(/.\x7b1,4\x7d/g)`. -/
def chunksOf4 : List Char → List (List Char)
  | [] => []
  | [a] => [[a]]
  | [a, b] => [[a, b]]
  | [a, b, c] => [[a, b, c]]
  | a :: b :: c :: d :: rest => [a, b, c, d] :: chunksOf4 rest

/-- `code?.match(/.\x7b1,4\x7d/g)?.join("-") || code` (line 457). -/
def formatPairingCode (code : String) : String :=
  if code.data.isEmpty then code
  else String.intercalate "-" ((chunksOf4 code.data).map String.mk)

/-- The code cached by a `pairingStates` entry (`state?.pairingCode`):
only `pending` entries carry one. -/
def pairingCodeOf : PairingState → Option String
  | .pending c _ => some c
  | .completed _ _ => none

/-- Observable result of the pairing block at the bottom of
`startConnection` (lines 449-504). -/
structure PairStepResult where
  pairingStates : List (String × PairingState)
  requestedNewCode : Bool
  codeShown : Option String
  httpStatus : Option Nat
  cleanupDelay : Option Nat
  keepAliveCleared : Bool

deriving instance DecidableEq for PairStepResult

/-- The pairing block (lines 449-504).  `rawCode` is what
`sock.requestPairingCode` would return and `requestFails` whether that call
throws.  The cached code is used only when one exists and
`retryCount` is zero: `if (!code || retryCount > 0)` requests a fresh one
(line 455).  No branch schedules a session cleanup. -/
def pairStep (ps : List (String × PairingState)) (phoneNumber : String)
    (registered : Bool) (retryCount : Nat) (rawCode : String)
    (requestFails : Bool) (resOpen : Bool) (now : Nat) : PairStepResult :=
  if registered then
    { pairingStates := ps, requestedNewCode := false, codeShown := none,
      httpStatus := if resOpen then some 400 else none,
      cleanupDelay := none, keepAliveCleared := true }
  else
    let cached := (rlookup ps phoneNumber).bind pairingCodeOf
    let needNew := cached.isNone || (retryCount != 0)
    if needNew && requestFails then
      { pairingStates := ps, requestedNewCode := true, codeShown := none,
        httpStatus := if resOpen then some 500 else none,
        cleanupDelay := none, keepAliveCleared := true }
    else
      let code := if needNew then formatPairingCode rawCode else cached.getD ""
      { pairingStates := rinsert ps phoneNumber (.pending code now),
        requestedNewCode := needNew, codeShown := some code,
        httpStatus := if resOpen then some 200 else none,
        cleanupDelay := none, keepAliveCleared := false }

/-- The body of a fired `scheduleSessionCleanup` timer (lines 262-270):
remove the session directory if present and delete both map entries. -/
def runCleanup (st : ServerState) (phoneNumber : String) : ServerState :=
  { userSockets := rerase st.userSockets phoneNumber,
    pairingStates := rerase st.pairingStates phoneNumber,
    sessionDirs := st.sessionDirs.filter (fun d => d != phoneNumber) }

/-- Outcome of the `POST /pair` route before any socket work. -/
inductive PairRouteOutcome where
  | invalidNumber
  | alreadyInProgress
  | startSocketInvoked (normalized : String)

deriving instance DecidableEq for PairRouteOutcome

/-- HTTP status produced synchronously by a `POST /pair` outcome. -/
def pairOutcomeStatus : PairRouteOutcome → Option Nat
  | .invalidNumber => some 400
  | .alreadyInProgress => some 400
  | .startSocketInvoked _ => none

/-- The `POST /pair` route (lines 523-553) up to the `startSocket` call:
validate the number, strip the leading `'+'`, reject with 400 when
`userSockets.has(number)`, otherwise hand the normalized number to
`startSocket`.  The reject branches leave the state untouched. -/
def postPair (st : ServerState) (number : String) : PairRouteOutcome × ServerState :=
  if !isValidNumber number then (.invalidNumber, st)
  else
    if (rlookup st.userSockets (stripPlus number)).isSome then (.alreadyInProgress, st)
    else (.startSocketInvoked (stripPlus number), st)

/-- Response of `GET /status/:number` (lines 556-575). -/
inductive StatusResponse where
  | notFound
  | pendingStatus (pairingCode : String) (timestamp : Nat)
  | completedStatus (timestamp : Nat)

deriving instance DecidableEq for StatusResponse

/-- The `GET /status/:number` route: strip the leading `'+'`, 404 when no
entry, else report the status with the pairing code while pending. -/
def getStatus (ps : List (String × PairingState)) (numberParam : String) : StatusResponse :=
  match rlookup ps (stripPlus numberParam) with
  | none => .notFound
  | some (.pending c t) => .pendingStatus c t
  | some (.completed _ t) => .completedStatus t

/-- Response of `GET /session/:number` (lines 578-602). -/
inductive SessionResponse where
  | notFound
  | notCompleted
  | sessionOk (sessionId : String)

deriving instance DecidableEq for SessionResponse

/-- The `GET /session/:number` route: strip the leading `'+'`, 404 when no
entry, 400 while not completed, else return the stored blob as
`sessionId`. -/
def getSession (ps : List (String × PairingState)) (numberParam : String) : SessionResponse :=
  match rlookup ps (stripPlus numberParam) with
  | none => .notFound
  | some (.pending _ _) => .notCompleted
  | some (.completed b _) => .sessionOk b

/-! Helper lemmas about the registry operations and the classifier. -/

theorem rlookup_rinsert {α : Type} (m : List (String × α)) (k : String) (v : α) :
    rlookup (rinsert m k v) k = some v := by
  induction m with
  | nil => simp [rinsert, rlookup]
  | cons p rest ih =>
    obtain ⟨k', v'⟩ := p
    by_cases h : k' = k
    · simp [rinsert, h, rlookup]
    · simp [rinsert, h, rlookup, ih]

theorem rlookup_rerase {α : Type} (m : List (String × α)) (k : String) :
    rlookup (rerase m k) k = none := by
  induction m with
  | nil => simp [rerase, rlookup]
  | cons p rest ih =>
    obtain ⟨k', v'⟩ := p
    by_cases h : k' = k
    · simp [rerase, h, ih]
    · simp [rerase, h, rlookup, ih]

theorem not_mem_filter_self (l : List String) (n : String) :
    n ∉ l.filter (fun d => d != n) := by
  simp [List.mem_filter]

theorem stripPlus_plus (n : String) : stripPlus ("+" ++ n) = n := by
  cases n with
  | mk d =>
    show String.mk (stripPlusList ('+' :: d)) = String.mk d
    simp [stripPlusList]

theorem stripPlus_eq_self (n : String) (h : n.data.head? ≠ some '+') : stripPlus n = n := by
  cases n with
  | mk d =>
    cases d with
    | nil => rfl
    | cons c cs =>
      have hc : c ≠ '+' := by
        intro he
        exact h (by rw [he]; rfl)
      show String.mk (stripPlusList (c :: cs)) = String.mk (c :: cs)
      simp [stripPlusList, hc]

theorem classify_eq_fatal_iff (r : Option Nat) :
    classifyDisconnect r = .terminalFatal ↔ r = some 401 := by
  unfold classifyDisconnect
  by_cases h1 : r = some 401
  · simp [h1]
  · by_cases h3 : r = some 403 <;> simp [h1, h3]

theorem classify_eq_forbidden_iff (r : Option Nat) :
    classifyDisconnect r = .terminalForbidden ↔ r = some 403 := by
  unfold classifyDisconnect
  by_cases h1 : r = some 401
  · simp [h1]
  · by_cases h3 : r = some 403 <;> simp [h1, h3]

theorem isRetryable_iff (r : Option Nat) :
    isRetryable r = true ↔ r ≠ some 401 ∧ r ≠ some 403 := by
  unfold isRetryable classifyDisconnect
  by_cases h1 : r = some 401
  · simp [h1]
  · by_cases h3 : r = some 403 <;> simp [h1, h3]

theorem finalRetryCount_le (trace : List (Option Nat)) :
    ∀ rc : Nat, rc < 3 → finalRetryCount (runDisconnects rc trace) ≤ 3 := by
  induction trace with
  | nil =>
    intro rc h
    simp only [runDisconnects, finalRetryCount]
    omega
  | cons r rest ih =>
    intro rc h
    by_cases h1 : r = some 401
    · subst h1
      simp [runDisconnects, finalRetryCount]
      omega
    · by_cases h3 : r = some 403
      · subst h3
        simp [runDisconnects, finalRetryCount]
        omega
      · by_cases hcap : maxRetries ≤ rc + 1
        · simp [runDisconnects, h1, h3, hcap, finalRetryCount]
          simp [maxRetries] at hcap
          omega
        · simp [runDisconnects, h1, h3, hcap]
          have hlt : rc + 1 < 3 := by
            simp [maxRetries] at hcap
            omega
          exact ih (rc + 1) hlt

theorem pairStep_cleanupDelay (ps : List (String × PairingState)) (n : String)
    (registered : Bool) (rc : Nat) (raw : String) (rf ro : Bool) (now : Nat) :
    (pairStep ps n registered rc raw rf ro now).cleanupDelay = none := by
  unfold pairStep
  by_cases hreg : registered
  · simp [hreg]
  · by_cases hnr : (((rlookup ps n).bind pairingCodeOf).isNone || (rc != 0)) && rf
    · simp [hreg, hnr]
    · simp [hreg, hnr]

/-! Claim theorems. -/

/-- C1, counterexample: with `maxRetries = 3`, three retryable disconnects
already abort the attempt — `runDisconnects` returns `.aborted 3` on the
third retryable close (after only two actual reconnects), while after two it
is still live.  So the cap-th retryable disconnect forces termination, not
the (cap+1)-th as the claim states: no fourth retryable disconnect of the
same attempt can ever be observed. -/
theorem claim1_counterexample :
    runDisconnects 0 [some 408, some 408, some 408] = .aborted 3 ∧
    runDisconnects 0 [some 408, some 408] = .live 2 := by decide

/-- C1, amended: `retryCount` never exceeds `maxRetries = 3`, and the
cap-th (third) retryable disconnect forces termination — `startConnection`
aborts with HTTP 500 when the response is still open and schedules cleanup
after 1000 ms — rather than another reconnect attempt. -/
theorem claim1_amended (trace rest : List (Option Nat)) (r1 r2 r3 : Option Nat)
    (h1 : isRetryable r1 = true) (h2 : isRetryable r2 = true)
    (h3 : isRetryable r3 = true) :
    finalRetryCount (runDisconnects 0 trace) ≤ maxRetries ∧
    runDisconnects 0 (r1 :: r2 :: r3 :: rest) = .aborted maxRetries ∧
    maxRetriesAbort true = (some 500, abortCleanupDelay) ∧
    abortCleanupDelay = 1000 := by
  obtain ⟨h1a, h1b⟩ := (isRetryable_iff r1).mp h1
  obtain ⟨h2a, h2b⟩ := (isRetryable_iff r2).mp h2
  obtain ⟨h3a, h3b⟩ := (isRetryable_iff r3).mp h3
  refine ⟨finalRetryCount_le trace 0 (by decide), ?_, rfl, rfl⟩
  simp [runDisconnects, h1a, h1b, h2a, h2b, h3a, h3b, maxRetries]

/-- C1, witness: the amended theorem at a concrete trace. -/
theorem claim1_witness :
    finalRetryCount (runDisconnects 0 [some 515]) ≤ maxRetries ∧
    runDisconnects 0 (some 408 :: some 515 :: none :: []) = .aborted maxRetries ∧
    maxRetriesAbort true = (some 500, abortCleanupDelay) ∧
    abortCleanupDelay = 1000 :=
  claim1_amended [some 515] [] (some 408) (some 515) none (by decide) (by decide)
    (by decide)

/-- C2, counterexample: on a retry (`retryCount = 1`) with a cached pending
code `ABCD-EFGH` in `pairingStates` and no transport-forced regeneration, the
pairing block nevertheless requests a fresh code and shows the newly
formatted one — the cached code is not reused. -/
theorem claim2_counterexample :
    (pairStep [("15551234567", PairingState.pending "ABCD-EFGH" 0)] "15551234567"
        false 1 "WXYZWXYZ" false true 5).requestedNewCode = true ∧
    (pairStep [("15551234567", PairingState.pending "ABCD-EFGH" 0)] "15551234567"
        false 1 "WXYZWXYZ" false true 5).codeShown = some "WXYZ-WXYZ" ∧
    some "WXYZ-WXYZ" ≠ some "ABCD-EFGH" := by decide

/-- C2, amended: the condition on line 455 is `!code || retryCount > 0`, so
on any retry within the same overall attempt a fresh pairing code is always
requested from the transport; the cached code is reused only when
`retryCount = 0` and a cached pending code exists. -/
theorem claim2_amended (ps : List (String × PairingState)) (n : String) (rc : Nat)
    (raw : String) (ro : Bool) (now : Nat) (c : String) (t : Nat) :
    (0 < rc → (pairStep ps n false rc raw false ro now).requestedNewCode = true) ∧
    (rlookup ps n = some (.pending c t) →
      (pairStep ps n false 0 raw false ro now).requestedNewCode = false ∧
      (pairStep ps n false 0 raw false ro now).codeShown = some c) := by
  constructor
  · intro h
    have hb : (rc != 0) = true := by
      simp [bne_iff_ne]
      omega
    simp [pairStep, hb]
  · intro h
    simp [pairStep, h, pairingCodeOf]

/-- C2, witness: the amended theorem at concrete inputs. -/
theorem claim2_witness :
    (pairStep [] "15551234567" false 2 "ABCDEFGH" false true 9).requestedNewCode = true ∧
    ((pairStep [("15551234567", PairingState.pending "QQQQ-RRRR" 1)] "15551234567"
        false 0 "ABCDEFGH" false true 9).requestedNewCode = false ∧
      (pairStep [("15551234567", PairingState.pending "QQQQ-RRRR" 1)] "15551234567"
        false 0 "ABCDEFGH" false true 9).codeShown = some "QQQQ-RRRR") :=
  ⟨(claim2_amended [] "15551234567" 2 "ABCDEFGH" true 9 "x" 0).1 (by decide),
    (claim2_amended [("15551234567", PairingState.pending "QQQQ-RRRR" 1)] "15551234567"
      0 "ABCDEFGH" true 9 "QQQQ-RRRR" 1).2 (by decide)⟩

/-- C3, counterexample: the `open` handler has no guard on the recorded
status.  With the session already `completed` and the credential file
present, a second `open` notification re-reads the file, re-sends the three
credential messages, and overwrites the stored blob (`Sano~OLD` becomes
`Sano~YQ==`, the encoding of the byte 97). -/
theorem claim3_counterexample :
    (onConnectionOpen [("15551234567", PairingState.completed "Sano~OLD" 0)]
        "15551234567" (some [97]) 7).credsRead = true ∧
    (onConnectionOpen [("15551234567", PairingState.completed "Sano~OLD" 0)]
        "15551234567" (some [97]) 7).messagesSent.length = 3 ∧
    rlookup (onConnectionOpen [("15551234567", PairingState.completed "Sano~OLD" 0)]
        "15551234567" (some [97]) 7).pairingStates "15551234567" =
      some (PairingState.completed "Sano~YQ==" 7) := by decide

/-- C3, amended: credential delivery is not guarded by the `completed`
state.  On every `open` notification with the credential file present —
whatever the recorded status — the handler reads the file, sends the blob
plus the two fixed texts, and stores a fresh `completed` entry, overwriting
any previous blob.  Moreover a terminal (401) close removes the entry
outright, so scheduled cleanup is not the only operation that ends the
`completed` status. -/
theorem claim3_amended (ps : List (String × PairingState)) (n : String)
    (bytes : List Nat) (now : Nat) (st : ServerState) (rc : Nat) (ro : Bool) :
    (onConnectionOpen ps n (some bytes) now).credsRead = true ∧
    (onConnectionOpen ps n (some bytes) now).messagesSent =
      [sanoMarker ++ base64Encode bytes, sessionSuccessText, pairSuccessText] ∧
    rlookup (onConnectionOpen ps n (some bytes) now).pairingStates n =
      some (.completed (sanoMarker ++ base64Encode bytes) now) ∧
    rlookup (onConnectionClose st n (some 401) rc ro).state.pairingStates n = none := by
  refine ⟨rfl, rfl, ?_, ?_⟩
  · simp [onConnectionOpen, rlookup_rinsert]
  · simp [onConnectionClose, rlookup_rerase]

/-- C4, confirmed: the disconnect classifier is total — 401 (loggedOut) is
terminal-fatal, 403 (forbidden) is terminal-forbidden, and every other
reason (any other status code or `undefined`) is retryable with the delay
from the fixed table, defaulting to 5000 ms for reasons outside the table. -/
theorem claim4_classifier_total :
    classifyDisconnect (some 401) = .terminalFatal ∧
    classifyDisconnect (some 403) = .terminalForbidden ∧
    (∀ r : Option Nat, r ≠ some 401 → r ≠ some 403 →
      classifyDisconnect r = .retryable (retryDelays r)) ∧
    retryDelays (some 428) = 10000 ∧ retryDelays (some 408) = 5000 ∧
    retryDelays (some 440) = 2000 ∧ retryDelays (some 500) = 5000 ∧
    retryDelays (some 503) = 60000 ∧ retryDelays (some 515) = 2000 ∧
    retryDelays none = 5000 ∧
    (∀ k : Nat, k ∉ ([428, 408, 440, 500, 503, 515] : List Nat) →
      retryDelays (some k) = 5000) := by
  refine ⟨rfl, rfl, ?_, rfl, rfl, rfl, rfl, rfl, rfl, rfl, ?_⟩
  · intro r hr1 hr3
    simp [classifyDisconnect, hr1, hr3]
  · intro k hk
    simp [List.mem_cons] at hk
    obtain ⟨k1, k2, k3, k4, k5, k6⟩ := hk
    simp [retryDelays, k1, k2, k3, k4, k5, k6]

/-- C4, witness: the classifier at the unlisted reason 999. -/
theorem claim4_witness :
    classifyDisconnect (some 999) = .retryable (retryDelays (some 999)) :=
  claim4_classifier_total.2.2.1 (some 999) (by decide) (by decide)

/-- C5, confirmed: on a terminal disconnect (classified fatal or forbidden,
i.e. reason 401 or 403) the session is destroyed and not retried — both map
entries are removed, the session directory is erased, no reconnect is
scheduled, and a subsequent `GET /status` for the number answers
not-found. -/
theorem claim5_terminal_destroys_session (st : ServerState) (n : String)
    (reason : Option Nat) (rc : Nat) (ro : Bool)
    (hterm : classifyDisconnect reason = .terminalFatal ∨
      classifyDisconnect reason = .terminalForbidden)
    (hn : stripPlus n = n) :
    rlookup (onConnectionClose st n reason rc ro).state.userSockets n = none ∧
    rlookup (onConnectionClose st n reason rc ro).state.pairingStates n = none ∧
    n ∉ (onConnectionClose st n reason rc ro).state.sessionDirs ∧
    (onConnectionClose st n reason rc ro).reconnectDelay = none ∧
    getStatus (onConnectionClose st n reason rc ro).state.pairingStates n = .notFound := by
  rcases hterm with hf | hb
  · have h401 : reason = some 401 := (classify_eq_fatal_iff reason).mp hf
    subst h401
    refine ⟨?_, ?_, ?_, ?_, ?_⟩
    · simp [onConnectionClose, rlookup_rerase]
    · simp [onConnectionClose, rlookup_rerase]
    · simp [onConnectionClose, List.mem_filter]
    · simp [onConnectionClose]
    · simp [onConnectionClose, getStatus, hn, rlookup_rerase]
  · have h403 : reason = some 403 := (classify_eq_forbidden_iff reason).mp hb
    subst h403
    refine ⟨?_, ?_, ?_, ?_, ?_⟩
    · simp [onConnectionClose, rlookup_rerase]
    · simp [onConnectionClose, rlookup_rerase]
    · simp [onConnectionClose, List.mem_filter]
    · simp [onConnectionClose]
    · simp [onConnectionClose, getStatus, hn, rlookup_rerase]

/-- C5, witness: a forbidden (403) close on a pending session. -/
theorem claim5_witness :
    rlookup (onConnectionClose ⟨[("15551234567", 0)],
        [("15551234567", PairingState.pending "AB-CD" 1)], ["15551234567"]⟩
        "15551234567" (some 403) 1 false).state.userSockets "15551234567" = none ∧
    rlookup (onConnectionClose ⟨[("15551234567", 0)],
        [("15551234567", PairingState.pending "AB-CD" 1)], ["15551234567"]⟩
        "15551234567" (some 403) 1 false).state.pairingStates "15551234567" = none ∧
    "15551234567" ∉ (onConnectionClose ⟨[("15551234567", 0)],
        [("15551234567", PairingState.pending "AB-CD" 1)], ["15551234567"]⟩
        "15551234567" (some 403) 1 false).state.sessionDirs ∧
    (onConnectionClose ⟨[("15551234567", 0)],
        [("15551234567", PairingState.pending "AB-CD" 1)], ["15551234567"]⟩
        "15551234567" (some 403) 1 false).reconnectDelay = none ∧
    getStatus (onConnectionClose ⟨[("15551234567", 0)],
        [("15551234567", PairingState.pending "AB-CD" 1)], ["15551234567"]⟩
        "15551234567" (some 403) 1 false).state.pairingStates "15551234567" = .notFound :=
  claim5_terminal_destroys_session _ _ _ _ _ (Or.inr (by decide)) (by decide)

/-- C6, confirmed: a `POST /pair` for a well-formed number that already has
a live socket is rejected with HTTP 400 (conflict) before `startSocket` is
invoked, and the server state is returned untouched. -/
theorem claim6_duplicate_pair_conflict (st : ServerState) (number : String)
    (hv : isValidNumber number = true)
    (hl : (rlookup st.userSockets (stripPlus number)).isSome = true) :
    postPair st number = (.alreadyInProgress, st) ∧
    pairOutcomeStatus (postPair st number).1 = some 400 := by
  have h1 : postPair st number = (.alreadyInProgress, st) := by
    simp [postPair, hv, hl]
  refine ⟨h1, ?_⟩
  rw [h1]
  rfl

/-- C6, witness: a second pair request for `+15551234567` while a socket for
`15551234567` is live. -/
theorem claim6_witness :
    postPair ⟨[("15551234567", 4)], [], []⟩ "+15551234567" =
      (.alreadyInProgress, ⟨[("15551234567", 4)], [], []⟩) ∧
    pairOutcomeStatus (postPair ⟨[("15551234567", 4)], [], []⟩ "+15551234567").1 =
      some 400 :=
  claim6_duplicate_pair_conflict _ _ (by decide) (by decide)

/-- C7, confirmed: `GET /session/:number` answers 404 when no pairing state
is recorded, 400 while the state is still pending, and otherwise success
with `sessionId` equal to the stored blob; the blob stored by the `open`
handler is exactly `Sano~` followed by the base64 encoding of the raw
contents of the credential file. -/
theorem claim7_session_route :
    (∀ (ps : List (String × PairingState)) (param : String),
      rlookup ps (stripPlus param) = none → getSession ps param = .notFound) ∧
    (∀ (ps : List (String × PairingState)) (param c : String) (t : Nat),
      rlookup ps (stripPlus param) = some (.pending c t) →
        getSession ps param = .notCompleted) ∧
    (∀ (ps : List (String × PairingState)) (param b : String) (t : Nat),
      rlookup ps (stripPlus param) = some (.completed b t) →
        getSession ps param = .sessionOk b) ∧
    (∀ (ps : List (String × PairingState)) (n : String) (bytes : List Nat) (now : Nat),
      rlookup (onConnectionOpen ps n (some bytes) now).pairingStates n =
        some (.completed (sanoMarker ++ base64Encode bytes) now)) := by
  refine ⟨?_, ?_, ?_, ?_⟩
  · intro ps param h
    simp [getSession, h]
  · intro ps param c t h
    simp [getSession, h]
  · intro ps param b t h
    simp [getSession, h]
  · intro ps n bytes now
    simp [onConnectionOpen, rlookup_rinsert]

/-- C7, witness: a completed session for `15551234567` whose blob encodes
the single byte 97. -/
theorem claim7_witness :
    getSession [("15551234567", PairingState.completed "Sano~YQ==" 3)] "15551234567" =
      .sessionOk "Sano~YQ==" :=
  claim7_session_route.2.2.1 [("15551234567", PairingState.completed "Sano~YQ==" 3)]
    "15551234567" "Sano~YQ==" 3 (by decide)

/-- C8, counterexample: the cleanup scheduled right after successful
credential delivery uses the default 5-minute delay (300000 ms), not a
short one, and the pairing block that issues the code schedules no cleanup
at all — no safety-net timer guards the pending window. -/
theorem claim8_counterexample :
    (onConnectionOpen [] "15551234567" (some [97]) 0).cleanupDelay =
      some (5 * 60 * 1000) ∧
    (pairStep [] "15551234567" false 0 "ABCDEFGH" false true 0).cleanupDelay = none := by
  decide

/-- C8, amended: two delay tiers exist, but assigned the other way round
from the claim: the near-immediate 1000 ms delay is scheduled at retry-cap
exhaustion, while the delivery path always schedules the default 5-minute
delay; the pairing block never arms a cleanup timer for the pending window.
When a cleanup timer does fire it removes both registry entries. -/
theorem claim8_amended (ps ps2 : List (String × PairingState)) (n m : String)
    (bytes : List Nat) (now now2 rc : Nat) (raw : String) (reg rf ro : Bool)
    (st : ServerState) :
    (onConnectionOpen ps n (some bytes) now).cleanupDelay =
      some scheduleSessionCleanupDefault ∧
    scheduleSessionCleanupDefault = 300000 ∧
    (pairStep ps2 m reg rc raw rf ro now2).cleanupDelay = none ∧
    maxRetriesAbort ro = ((if ro then some 500 else none), abortCleanupDelay) ∧
    abortCleanupDelay = 1000 ∧
    rlookup (runCleanup st m).pairingStates m = none ∧
    rlookup (runCleanup st m).userSockets m = none := by
  refine ⟨rfl, rfl, pairStep_cleanupDelay ps2 m reg rc raw rf ro now2, rfl, rfl, ?_, ?_⟩
  · simp [runCleanup, rlookup_rerase]
  · simp [runCleanup, rlookup_rerase]

/-- C9, confirmed: `GET /status/:number` and `GET /session/:number` strip a
single leading `'+'` from the path parameter before the registry lookup, so
`+N` and `N` address the same pairing state whenever `N` does not itself
start with `'+'`. -/
theorem claim9_plus_strip (ps : List (String × PairingState)) (n : String)
    (h : n.data.head? ≠ some '+') :
    getStatus ps ("+" ++ n) = getStatus ps n ∧
    getSession ps ("+" ++ n) = getSession ps n := by
  have h1 : stripPlus ("+" ++ n) = n := stripPlus_plus n
  have h2 : stripPlus n = n := stripPlus_eq_self n h
  constructor
  · simp only [getStatus, h1, h2]
  · simp only [getSession, h1, h2]

/-- C9, witness: the routes agree on `+15551234567` and `15551234567`. -/
theorem claim9_witness :
    getStatus [("15551234567", PairingState.pending "AB-CD" 0)] "+15551234567" =
      getStatus [("15551234567", PairingState.pending "AB-CD" 0)] "15551234567" ∧
    getSession [("15551234567", PairingState.pending "AB-CD" 0)] "+15551234567" =
      getSession [("15551234567", PairingState.pending "AB-CD" 0)] "15551234567" :=
  claim9_plus_strip [("15551234567", PairingState.pending "AB-CD" 0)] "15551234567"
    (by decide)

/-- C10, confirmed: when the credential file is absent at the `open`
notification (after the grace delay), the handler is a no-op apart from the
error log — the pairing states are unchanged (so the entry stays pending),
no message is sent, nothing is reported to the caller, and neither a socket
close nor a cleanup is scheduled from that path. -/
theorem claim10_missing_creds_noop (ps : List (String × PairingState)) (n : String)
    (now : Nat) :
    onConnectionOpen ps n none now =
      { pairingStates := ps, messagesSent := [], credsRead := false,
        socketCloseDelay := none, cleanupDelay := none, errorLogged := true } := rfl

end SanoSession
